import Mathlib

/-!
Shallow embedding of the judo session-log application (`src/app.py`):
the season calculator, the schema, the Google-Sheets gateway helpers
(`_a1_col_letters`, `_find_row_by_id`), the store operations
(`load_df`, `save_df`, `next_id`) and the edit-form single-row update.

A worksheet is modelled as a list of rows; a cell value as written by the
application is either a string or a Python int (`Cell`).  gspread renders
cell reads as strings, which `Cell.toPyStr` models (Python `str(...)`).
Python `str.strip()` is modelled by `pyStrip` (whitespace stripping on
both ends, identical on the ASCII whitespace the application handles).
-/

namespace JudoApp

/-- A spreadsheet cell value as the application writes it: a string or a
Python integer. -/
inductive Cell where
  | str (s : String)
  | int (n : Int)
  deriving DecidableEq, Repr

/-- Python `str(...)` applied to a cell value. -/
def Cell.toPyStr : Cell → String
  | .str s => s
  | .int n => toString n

/-- A calendar date as Python's `datetime.date`: `year` is a Python int
(always between 1 and 9999 for a real `date`), `month` is 1..12. -/
structure Date where
  year : Int
  month : Nat
  day : Nat
  deriving DecidableEq, Repr

/-- Schema `COLUMNS` from `app.py`: the fixed schema, 15 column names in order. -/
def COLUMNS : List String :=
  ["id", "date", "saison", "public", "objectif", "tags", "duree_min",
   "echauffement", "corps", "retour", "materiel", "bilan", "effectif",
   "rpe", "auteur"]

/-- Function `to_season` from `app.py`:
`f"{d.year-1}-{d.year}" if d.month < 7 else f"{d.year}-{d.year+1}"`. -/
def to_season (d : Date) : String :=
  if d.month < 7 then toString (d.year - 1) ++ "-" ++ toString d.year
  else toString d.year ++ "-" ++ toString (d.year + 1)

/-- Function `next_id` from `app.py`: `int(df["id"].max() + 1) if not df.empty else 1`.
The argument is the `id` column of the frame; `List.maximum` is `none`
exactly when the frame is empty. -/
def next_id (ids : List Int) : Int :=
  match ids.maximum with
  | none => 1
  | some m => m + 1

/-- Function `_a1_col_letters` from `app.py`: the loop
`while n > 0: n, r = divmod(n - 1, 26); s = chr(65 + r) + s`. -/
def a1_col_letters (n : Nat) : String :=
  if _h : n = 0 then ""
  else a1_col_letters ((n - 1) / 26) ++ String.mk [Char.ofNat (65 + (n - 1) % 26)]
termination_by n
decreasing_by
  have h1 : (n - 1) / 26 ≤ n - 1 := Nat.div_le_self _ _
  omega

/-- Python `str.strip()`: drop leading and trailing whitespace. -/
def pyStrip (s : String) : String :=
  String.mk (((s.data.dropWhile Char.isWhitespace).reverse.dropWhile
    Char.isWhitespace).reverse)

/-- The comparison key used by `_find_row_by_id`:
`str(v).strip()` (on the cell side the rendered value is already a
string, so only `strip` applies). -/
def cellKey (c : Cell) : String := pyStrip c.toPyStr

/-- The `for i, v in enumerate(col, start=1)` loop body of
`_find_row_by_id`: skip `i == 1` (header), return the first `i` whose
value strips to the key. -/
def findRowAux (key : String) : List String → Nat → Option Nat
  | [], _ => none
  | v :: rest, i =>
    if i = 1 then findRowAux key rest (i + 1)
    else if pyStrip v = key then some i
    else findRowAux key rest (i + 1)

/-- Function `_find_row_by_id` from `app.py`: scans `ws.col_values(1)` with a
1-based index, skipping the header row, comparing `str(v).strip()`
against `str(session_id).strip()`. -/
def find_row_by_id (col : List String) (session_id : Cell) : Option Nat :=
  findRowAux (cellKey session_id) col 1

/-- A worksheet: its grid of non-empty rows, top to bottom. -/
abbrev Sheet := List (List Cell)

/-- Gateway call `ws.clear()`: removes every value from the worksheet. -/
def ws_clear (_s : Sheet) : Sheet := []

/-- Gateway call `ws.append_row(row)`: appends one row after the last data row. -/
def ws_append_row (s : Sheet) (row : List Cell) : Sheet := s ++ [row]

/-- Gateway call `ws.append_rows(rows)`: appends the rows after the last data row. -/
def ws_append_rows (s : Sheet) (rows : List (List Cell)) : Sheet := s ++ rows

/-- Gateway call `ws.col_values(1)`: the values of column A rendered as strings,
row by row (an absent first cell renders as `""`). -/
def col_values1 (s : Sheet) : List String :=
  s.map (fun r => (r.headD (Cell.str "")).toPyStr)

/-- The header row: `COLUMNS` as written by `ws.append_row(COLUMNS)`. -/
def headerRow : List Cell := COLUMNS.map Cell.str

/-- Left zero-padding, as `strftime` pads year/month/day fields. -/
def zpad (w : Nat) (s : String) : String :=
  if s.length < w then String.mk (List.replicate (w - s.length) '0') ++ s
  else s

/-- Formatting `pd.to_datetime(d).strftime("%Y-%m-%d")` of a calendar date. -/
def dateIso (d : Date) : String :=
  zpad 4 (toString d.year) ++ "-" ++ zpad 2 (toString d.month) ++ "-" ++
    zpad 2 (toString d.day)

/-- One session row of the in-memory frame, one field per `COLUMNS`
entry (the `date` cell held as a calendar date, as after
`pd.to_datetime`). -/
structure Record where
  id : Int
  date : Date
  saison : String
  public : String
  objectif : String
  tags : String
  duree_min : Int
  echauffement : String
  corps : String
  retour : String
  materiel : String
  bilan : String
  effectif : Int
  rpe : Int
  auteur : String
  deriving DecidableEq, Repr

/-- One frame row as `save_df` serializes it: the `date` column through
`strftime("%Y-%m-%d")`, then `fillna("").astype(str)`, so every cell is
a string, in `COLUMNS` order. -/
def serializeRecord (r : Record) : List Cell :=
  [.str (toString r.id), .str (dateIso r.date), .str r.saison,
   .str r.public, .str r.objectif, .str r.tags,
   .str (toString r.duree_min), .str r.echauffement, .str r.corps,
   .str r.retour, .str r.materiel, .str r.bilan,
   .str (toString r.effectif), .str (toString r.rpe), .str r.auteur]

/-- Function `save_df` from `app.py`: `ws.clear()`, `ws.append_row(COLUMNS)`,
`ws.append_rows(<serialized frame rows>)` (the trailing
`load_df.clear()` only invalidates the read cache). -/
def save_df (s : Sheet) (records : List Record) : Sheet :=
  ws_append_rows (ws_append_row (ws_clear s) headerRow)
    (records.map serializeRecord)

/-- The worksheet-lookup step of `load_df`
(`sh.worksheet(...)` / `except WorksheetNotFound: add_worksheet; append_row(COLUMNS)`):
the table either already holds the worksheet or it is created blank and
the header row appended.  Returns the worksheet together with the table
state after the call. -/
def get_or_create_sheet (t : Option Sheet) : Sheet × Option Sheet :=
  match t with
  | some ws => (ws, some ws)
  | none =>
    let ws := ws_append_row [] headerRow
    (ws, some ws)

/-- Gateway call `ws.get_all_records()`: every data row, header row excluded, in
sheet order. -/
def get_all_records (s : Sheet) : List (List Cell) := s.drop 1

/-- Function `load_df` from `app.py` at row granularity: ensure the worksheet
exists, read all records in sheet order.  (The source then re-parses
the `date` column in place with `pd.to_datetime(..., errors="coerce")`,
which rewrites single cells and never adds or removes a row.) -/
def load_df (t : Option Sheet) : List (List Cell) × Option Sheet :=
  let p := get_or_create_sheet t
  (get_all_records p.1, p.2)

/-- The edit form's field values as read in the submit handler.
`saison` stands for whatever season value the caller holds for the
record; the handler never reads it and recomputes
`new_saison = to_season(new_date)`. -/
structure EditFields where
  date : Date
  saison : String
  public : String
  objectif : String
  tags : String
  duree_min : Int
  echauffement : String
  corps : String
  retour : String
  materiel : String
  bilan : String
  effectif : Int
  rpe : Int
  auteur : String
  deriving DecidableEq, Repr

/-- The `updated` dict of the edit submit handler, read out in schema
order: `[updated.get(k, "") for k in COLUMNS]`. -/
def updatedValues (selected_id : Int) (f : EditFields) : List Cell :=
  [.int selected_id,
   .str (dateIso f.date),
   .str (to_season f.date),
   .str f.public,
   .str (pyStrip f.objectif),
   .str (pyStrip f.tags),
   .int f.duree_min,
   .str (pyStrip f.echauffement),
   .str (pyStrip f.corps),
   .str (pyStrip f.retour),
   .str (pyStrip f.materiel),
   .str (pyStrip f.bilan),
   .int f.effectif,
   .int f.rpe,
   .str (pyStrip f.auteur)]

/-- Gateway call `ws.update(f"A{row_idx}:{end_col}{row_idx}", [values])` with
`end_col = _a1_col_letters(len(COLUMNS))`: overwrite the full schema
width of the single 1-based row `row_idx`. -/
def update_row (s : Sheet) (row_idx : Nat) (values : List Cell) : Sheet :=
  s.set (row_idx - 1) values

/-- Outcome of the edit submit handler: success, or the
`st.error("Séance introuvable dans Google Sheets.")` branch. -/
inductive EditOutcome where
  | ok
  | notFound
  deriving DecidableEq, Repr

/-- The edit submit handler of `app.py`: build `updated`, locate the
row of `selected_id` via `_find_row_by_id`; if absent report not-found
and write nothing, otherwise overwrite exactly that row.  Returns the
outcome together with the worksheet after the call. -/
def update_by_id (s : Sheet) (selected_id : Int) (f : EditFields) :
    EditOutcome × Sheet :=
  match find_row_by_id (col_values1 s) (.int selected_id) with
  | none => (.notFound, s)
  | some row_idx => (.ok, update_row s row_idx (updatedValues selected_id f))

/-- A concrete three-row worksheet (header plus two sessions) used by
the witnesses. -/
def sampleSheet : Sheet :=
  [headerRow,
   [Cell.int 1, Cell.str "2024-01-10", Cell.str "2023-2024"],
   [Cell.int 2, Cell.str "2024-09-15", Cell.str "2024-2025"]]

/-- Concrete edit-form field values used by the witnesses. -/
def sampleFields : EditFields :=
  { date := ⟨2025, 3, 2⟩, saison := "2000-2001", public := "Poussins (8-9)",
    objectif := "Randori", tags := " t ", duree_min := 60,
    echauffement := "e", corps := "c", retour := "r", materiel := "m",
    bilan := "b", effectif := 15, rpe := 5, auteur := "Coach" }

/-! ## Helper lemmas -/

/-- The scan loop of `_find_row_by_id`, once past the header, is a
first-index search with a running 1-based counter. -/
theorem findRowAux_eq_findIdx (key : String) :
    ∀ (l : List String) (i : Nat), 2 ≤ i →
      findRowAux key l i = l.findIdx? (fun v => pyStrip v == key) i
  | [], _, _ => by simp [findRowAux]
  | v :: rest, i, hi => by
    rw [List.findIdx?_cons]
    show (if i = 1 then findRowAux key rest (i + 1)
      else if pyStrip v = key then some i
      else findRowAux key rest (i + 1)) = _
    rw [if_neg (by omega)]
    by_cases hv : pyStrip v = key
    · simp [hv]
    · rw [if_neg hv]
      have hb : (pyStrip v == key) = false := by
        simpa using hv
      rw [hb]
      simpa using findRowAux_eq_findIdx key rest (i + 1) (by omega)

/-- Bounds of a successful scan: the returned index lies in the scanned
range and can never be the header index 1. -/
theorem findRowAux_some_bounds (key : String) :
    ∀ (l : List String) (i j : Nat), 1 ≤ i →
      findRowAux key l i = some j → i ≤ j ∧ j < i + l.length ∧ 2 ≤ j
  | [], _, _, _, h => by simp [findRowAux] at h
  | v :: rest, i, j, hi, h => by
    revert h
    show (if i = 1 then findRowAux key rest (i + 1)
      else if pyStrip v = key then some i
      else findRowAux key rest (i + 1)) = some j → _
    by_cases h1 : i = 1
    · rw [if_pos h1]
      intro h
      have := findRowAux_some_bounds key rest (i + 1) j (by omega) h
      simp only [List.length_cons]
      omega
    · rw [if_neg h1]
      by_cases hv : pyStrip v = key
      · rw [if_pos hv]
        intro h
        have hj : i = j := by simpa using h
        simp only [List.length_cons]
        omega
      · rw [if_neg hv]
        intro h
        have := findRowAux_some_bounds key rest (i + 1) j (by omega) h
        simp only [List.length_cons]
        omega

/-- Bounds of a successful `_find_row_by_id`: the result is at least 2
(the header row is never returned) and at most the column length. -/
theorem find_row_by_id_some_bounds (col : List String) (sid : Cell) (i : Nat)
    (h : find_row_by_id col sid = some i) : 2 ≤ i ∧ i ≤ col.length := by
  have := findRowAux_some_bounds (cellKey sid) col 1 i (by omega) h
  omega

/-- Two lists related by a permutation have the same maximum. -/
theorem maximum_of_perm {l l₂ : List Int} (h : l.Perm l₂) :
    l.maximum = l₂.maximum := by
  cases hm : l₂.maximum with
  | bot =>
    have h2 : l₂ = [] := List.maximum_eq_bot.mp hm
    have h3 : l = [] := by rw [h2] at h; exact h.eq_nil
    rw [h3]; rfl
  | coe m =>
    have hm2 := List.maximum_eq_coe_iff.mp hm
    exact List.maximum_eq_coe_iff.mpr
      ⟨h.mem_iff.mpr hm2.1, fun a ha => hm2.2 a (h.mem_iff.mp ha)⟩

end JudoApp

/-! ## Claim theorems -/

namespace JudoApp

/-- Claim C4: for every calendar date `d`, the season calculator returns
`"{d.year-1}-{d.year}"` when `d.month < 7` and `"{d.year}-{d.year+1}"`
when `d.month >= 7`; it is a total function with no failure mode, and in
particular it maps 2024-06-30 to `"2023-2024"` and 2024-07-01 to
`"2024-2025"`. -/
theorem season_of_correct :
    (∀ d : Date, d.month < 7 →
      to_season d = toString (d.year - 1) ++ "-" ++ toString d.year) ∧
    (∀ d : Date, 7 ≤ d.month →
      to_season d = toString d.year ++ "-" ++ toString (d.year + 1)) ∧
    to_season ⟨2024, 6, 30⟩ = "2023-2024" ∧
    to_season ⟨2024, 7, 1⟩ = "2024-2025" := by
  refine ⟨?_, ?_, by decide, by decide⟩
  · intro d h
    simp [to_season, h]
  · intro d h
    simp [to_season, Nat.not_lt.mpr h]

/-- Witness for C4, at the two boundary dates of the claim. -/
theorem season_of_correct_witness :
    ((⟨2024, 6, 30⟩ : Date).month < 7 ∧
      to_season ⟨2024, 6, 30⟩ =
        toString ((2024 : Int) - 1) ++ "-" ++ toString (2024 : Int)) ∧
    (7 ≤ (⟨2024, 7, 1⟩ : Date).month ∧
      to_season ⟨2024, 7, 1⟩ =
        toString (2024 : Int) ++ "-" ++ toString ((2024 : Int) + 1)) :=
  ⟨⟨by decide, season_of_correct.1 ⟨2024, 6, 30⟩ (by decide)⟩,
   ⟨by decide, season_of_correct.2.1 ⟨2024, 7, 1⟩ (by decide)⟩⟩

/-- Claim C6: `next_id` is `max(existing ids) + 1`, and `1` on an empty
collection; in particular `next_id [] = 1` and `next_id` of ids
`{1, 5, 3}` is `6`, independent of the order of the records. -/
theorem next_id_correct :
    next_id [] = 1 ∧
    next_id [1, 5, 3] = 6 ∧
    (∀ (l : List Int) (m : Int), l.maximum = some m → next_id l = m + 1) ∧
    (∀ l l₂ : List Int, l.Perm l₂ → next_id l = next_id l₂) := by
  refine ⟨by decide, by decide, ?_, ?_⟩
  · intro l m hm
    simp [next_id, hm]
  · intro l l₂ h
    simp [next_id, maximum_of_perm h]

/-- Witness for C6: maximum 5 of `[1, 5, 3]` yields 6, and a concrete
reordering leaves the result unchanged. -/
theorem next_id_correct_witness :
    (([1, 5, 3] : List Int).maximum = some 5 ∧
      next_id [1, 5, 3] = 5 + 1) ∧
    (([1, 5, 3] : List Int).Perm [3, 1, 5] ∧
      next_id [1, 5, 3] = next_id [3, 1, 5]) :=
  ⟨⟨by decide, next_id_correct.2.2.1 [1, 5, 3] 5 (by decide)⟩,
   ⟨by decide, next_id_correct.2.2.2 [1, 5, 3] [3, 1, 5] (by decide)⟩⟩

/-- Claim C7: the column-letter conversion follows the bijective base-26
recurrence (letter `(n-1) mod 26` appended after the conversion of
`(n-1) div 26`), and maps 1, 26, 27, 52, 702, 703 to `"A"`, `"Z"`,
`"AA"`, `"AZ"`, `"ZZ"`, `"AAA"`. -/
theorem a1_col_letters_correct :
    (∀ n : Nat, 0 < n → a1_col_letters n =
      a1_col_letters ((n - 1) / 26) ++
        String.mk [Char.ofNat (65 + (n - 1) % 26)]) ∧
    a1_col_letters 1 = "A" ∧ a1_col_letters 26 = "Z" ∧
    a1_col_letters 27 = "AA" ∧ a1_col_letters 52 = "AZ" ∧
    a1_col_letters 702 = "ZZ" ∧ a1_col_letters 703 = "AAA" := by
  refine ⟨?_, ?_, ?_, ?_, ?_, ?_, ?_⟩
  · intro n hn
    rw [a1_col_letters]
    rw [dif_neg (by omega)]
  all_goals simp [a1_col_letters]

/-- Witness for C7: one unfolding of the recurrence at `n = 703`. -/
theorem a1_col_letters_correct_witness :
    0 < 703 ∧ a1_col_letters 703 =
      a1_col_letters 27 ++ String.mk [Char.ofNat (65 + 0)] :=
  ⟨by decide, a1_col_letters_correct.1 703 (by decide)⟩

/-- Claim C5: `_find_row_by_id` scans the id column top to bottom
starting after the header and returns the 1-based index (header = row 1)
of the first data row whose cell matches, `none` when no data row
matches: it equals a first-index search over the data rows with the
counter started at 2.  For a header plus 3 data rows with the target in
the 2nd data row it returns 3. -/
theorem find_row_by_id_correct :
    (∀ (col : List String) (sid : Cell),
      find_row_by_id col sid =
        (col.drop 1).findIdx? (fun v => pyStrip v == cellKey sid) 2) ∧
    find_row_by_id ["id", "7", "4", "9"] (.str "4") = some 3 := by
  refine ⟨?_, by decide⟩
  intro col sid
  cases col with
  | nil => simp [find_row_by_id, findRowAux]
  | cons h rest =>
    show findRowAux (cellKey sid) (h :: rest) 1 = _
    have h1 : findRowAux (cellKey sid) (h :: rest) 1 =
        findRowAux (cellKey sid) rest 2 := by
      simp [findRowAux]
    rw [h1, List.drop_one, List.tail_cons]
    exact findRowAux_eq_findIdx (cellKey sid) rest 2 (by omega)

/-- Claim C10: the id comparison in `_find_row_by_id` converts both
sides to strings and strips surrounding whitespace — the result depends
on the id only through its stripped string form, the integer 5 matches
a cell containing `" 5 "` — and the header row (row 1) is never
returned as the match. -/
theorem find_row_by_id_strip_insensitive :
    (∀ (col : List String) (sid : Cell) (i : Nat),
      find_row_by_id col sid = some i → 2 ≤ i) ∧
    (∀ (col : List String) (c₁ c₂ : Cell), cellKey c₁ = cellKey c₂ →
      find_row_by_id col c₁ = find_row_by_id col c₂) ∧
    find_row_by_id ["id", " 5 "] (.int 5) = some 2 := by
  refine ⟨?_, ?_, by decide⟩
  · intro col sid i h
    exact (find_row_by_id_some_bounds col sid i h).1
  · intro col c₁ c₂ h
    unfold find_row_by_id
    rw [h]

/-- Witness for C10: the integer id 5 is found in the cell `" 5 "` at
row 2 (which is at least 2), and replacing the id by the string
`" 5 "` itself does not change the result. -/
theorem find_row_by_id_strip_insensitive_witness :
    (find_row_by_id ["id", " 5 "] (Cell.int 5) = some 2 ∧ 2 ≤ 2) ∧
    (cellKey (Cell.int 5) = cellKey (Cell.str " 5 ") ∧
      find_row_by_id ["id", " 5 "] (Cell.int 5) =
        find_row_by_id ["id", " 5 "] (Cell.str " 5 ")) :=
  ⟨⟨by decide, find_row_by_id_strip_insensitive.1 ["id", " 5 "]
      (Cell.int 5) 2 (by decide)⟩,
   ⟨by decide, find_row_by_id_strip_insensitive.2.1 ["id", " 5 "]
      (Cell.int 5) (Cell.str " 5 ") (by decide)⟩⟩

/-- Claim C3: `save_df` performs a full replace: the resulting sheet is
exactly the schema header as row 1 followed by the given records
serialized through the schema, one row per record, in the order the
caller passed them, whatever the sheet held before. -/
theorem save_df_full_replace :
    ∀ (s : Sheet) (records : List Record),
      save_df s records = headerRow :: records.map serializeRecord ∧
      (save_df s records).head? = some headerRow ∧
      (save_df s records).drop 1 = records.map serializeRecord ∧
      (save_df s records).length = records.length + 1 := by
  intro s records
  refine ⟨rfl, rfl, rfl, ?_⟩
  simp [save_df, ws_append_rows, ws_append_row, ws_clear]

/-- Claim C8: the worksheet-lookup step of `load_df` is idempotent with
respect to the header: a second call finds the worksheet created by the
first and the sheet holds exactly one header row, never two. -/
theorem get_or_create_sheet_idempotent :
    (∀ t : Option Sheet,
      get_or_create_sheet (get_or_create_sheet t).2 = get_or_create_sheet t) ∧
    (get_or_create_sheet (get_or_create_sheet none).2).1 = [headerRow] ∧
    ((get_or_create_sheet (get_or_create_sheet none).2).1).count headerRow
      = 1 := by
  refine ⟨?_, by decide, by decide⟩
  intro t
  cases t <;> rfl

/-- Claim C9: `load_df` on a sheet holding only its header row returns
an empty sequence of records (and, being a total function, raises no
error). -/
theorem load_df_empty_sheet :
    (∀ r : List Cell, (load_df (some [r])).1 = []) ∧
    load_df (some [headerRow]) = ([], some [headerRow]) :=
  ⟨fun _ => rfl, rfl⟩

/-- Claim C1: when the id is present, the edit-form update succeeds,
writes the full 15-column schema-ordered value list — with `saison`
recomputed from the new date, whatever season value the caller held —
into exactly the row located by `_find_row_by_id`, and leaves every
other row and the sheet length unchanged. -/
theorem update_by_id_frame (s : Sheet) (sid : Int) (f : EditFields) (i : Nat)
    (h : find_row_by_id (col_values1 s) (Cell.int sid) = some i) :
    (update_by_id s sid f).1 = EditOutcome.ok ∧
    (update_by_id s sid f).2.length = s.length ∧
    ((update_by_id s sid f).2)[i - 1]? = some (updatedValues sid f) ∧
    (∀ j : Nat, j ≠ i - 1 → ((update_by_id s sid f).2)[j]? = s[j]?) ∧
    (updatedValues sid f).length = COLUMNS.length ∧
    (updatedValues sid f)[2]? = some (Cell.str (to_season f.date)) ∧
    (∀ stale : String,
      updatedValues sid { f with saison := stale } = updatedValues sid f) := by
  have hb := find_row_by_id_some_bounds _ _ _ h
  have hlen : (col_values1 s).length = s.length := List.length_map _ _
  have hi : i - 1 < s.length := by omega
  unfold update_by_id
  rw [h]
  refine ⟨rfl, ?_, ?_, ?_, rfl, rfl, fun _ => rfl⟩
  · simp [update_row]
  · exact List.getElem?_set_eq_of_lt _ hi
  · intro j hj
    exact List.getElem?_set_ne (fun hc => hj hc.symm)

/-- Witness for C1: in the sample sheet, id 2 sits in row 3; the update
succeeds, rewrites row 3 with the recomputed-season value list, and
keeps the other rows. -/
theorem update_by_id_frame_witness :
    find_row_by_id (col_values1 sampleSheet) (Cell.int 2) = some 3 ∧
    ((update_by_id sampleSheet 2 sampleFields).1 = EditOutcome.ok ∧
      (update_by_id sampleSheet 2 sampleFields).2.length =
        sampleSheet.length ∧
      ((update_by_id sampleSheet 2 sampleFields).2)[3 - 1]? =
        some (updatedValues 2 sampleFields)) := by
  have h : find_row_by_id (col_values1 sampleSheet) (Cell.int 2) = some 3 := by
    decide
  have hc := update_by_id_frame sampleSheet 2 sampleFields 3 h
  exact ⟨h, hc.1, hc.2.1, hc.2.2.1⟩

/-- Claim C2: when the id matches no row, the edit-form update reports
the user-visible not-found outcome and performs no write: the sheet is
returned exactly as it was. -/
theorem update_by_id_not_found (s : Sheet) (sid : Int) (f : EditFields)
    (h : find_row_by_id (col_values1 s) (Cell.int sid) = none) :
    update_by_id s sid f = (EditOutcome.notFound, s) := by
  unfold update_by_id
  rw [h]

/-- Witness for C2: id 7 is absent from the sample sheet; the update
reports not-found and leaves the sheet identical. -/
theorem update_by_id_not_found_witness :
    find_row_by_id (col_values1 sampleSheet) (Cell.int 7) = none ∧
    update_by_id sampleSheet 7 sampleFields =
      (EditOutcome.notFound, sampleSheet) :=
  ⟨by decide, update_by_id_not_found sampleSheet 7 sampleFields (by decide)⟩

end JudoApp
